import Mathlib

/-!
# tmail supervisor (`tmail.go`): startup, schema bootstrap and shutdown

A shallow embedding of `func init()` and `func main()` of `tmail.go`.

The supervisor is straight-line glue around calls into other packages
(`scope`, `nsqd`, `scanner`, `smtpd`, `deliverd`, `cli`, `os`, `bufio`).
Each such call is an *event*; what the call returns is supplied by an
environment `Env` (one field per call whose result the code looks at).
Running the program against an environment yields the ordered list of
events it issued and the way the run ended.

Conventions.
* `log.Fatalln` / `log.Fatalf` print and call `os.Exit(1)`.
* An index expression `r[0]` on an empty slice is a run-time panic
  (the Go runtime exits with status 2).
* `go f()` is the event of spawning `f`; it completes at once.
* `<-sigChan` is the point where the program receives the termination
  signal registered by `signal.Notify` for SIGINT and SIGTERM.
* Standard input is the sequence of byte chunks handed out by the successive
  `Read` calls on `os.Stdin`: a non-empty chunk is a read that returns these
  bytes (cut at the space the reader offers, the remainder staying for the
  next read), an empty chunk is a read that returns no bytes and `io.EOF`
  (end of input signalled on a terminal), and once the sequence is exhausted
  every read returns no bytes and `io.EOF`.
* `bufio.NewReader(os.Stdin).ReadLine()` (line 54) is a `ReadLine` on a new
  4096-byte reader: it fills its buffer read by read until the buffer holds a
  `\n`, is full, or a read reports end of input, and returns the first line
  without its `\n` or `\r\n`. The reader is dropped afterwards, so the bytes
  it buffered beyond that line are never seen by the next iteration.
* A signal delivered between `signal.Notify` and `<-sigChan` waits in the
  channel (capacity 1); the program acts on it at `<-sigChan` only.
-/

namespace Tmail

/-! ## Data model -/

/-- Go `time.Duration`: a count of nanoseconds. -/
abbrev Duration := Int

def Nanosecond : Duration := 1
def Microsecond : Duration := 1000 * Nanosecond
def Millisecond : Duration := 1000 * Microsecond
def Second : Duration := 1000 * Millisecond
def Minute : Duration := 60 * Second
def Hour : Duration := 60 * Minute

/-- Destination of a `log.Logger`: `ioutil.Discard` or `os.Stdout`. -/
inductive LogOut
  | discard
  | stdout
  deriving DecidableEq, Repr

/-- The arguments of `log.New(out, pfx, flags)`. -/
structure Logger where
  out : LogOut
  pfx : String
  flags : Nat
  deriving DecidableEq, Repr

/-- Flag `log.Ldate`. -/
def Ldate : Nat := 1
/-- Flag `log.Ltime`. -/
def Ltime : Nat := 2
/-- Flag `log.Lmicroseconds`. -/
def Lmicroseconds : Nat := 4

/-- The fields of `nsqd.NSQDOptions` that `main` assigns; `others` stands for
all remaining fields of the library structure, which `main` never touches. -/
structure NSQDOptions (ρ : Type) where
  Logger : Logger
  Verbose : Bool
  DataPath : String
  NSQLookupdTCPAddresses : List String
  DeflateEnabled : Bool
  MsgTimeout : Duration
  MaxMsgTimeout : Duration
  MaxReqTimeout : Duration
  MemQueueSize : Int
  others : ρ
  deriving DecidableEq, Repr

/-- The values read through `scope.Cfg.Get...()`. -/
structure Cfg where
  dbDriver : String
  dbSource : String
  launchDeliverd : Bool
  launchSmtpd : Bool
  nsqdEnableLogging : Bool
  debugEnabled : Bool
  clusterModeEnabled : Bool
  nsqLookupdTcpAddresses : List String
  smtpdClamavEnabled : Bool
  smtpdClamavDsns : String
  smtpdDsns : String

/-- How `app.Run(os.Args)` dispatches: to a sub-command of `cliCommands` or a
built-in flag of the cli library (the default action is not run), or to
`app.Action` with the positional arguments `c.Args()`. -/
inductive CliDispatch
  | command
  | action (args : List String)

/-- Results of the calls the supervisor makes into its collaborators. -/
structure Env (ρ : Type) where
  /-- Whether `scope.Init()` returned `nil`. -/
  scopeInitOk : Bool
  /-- Value of `util.GetBasePath()`. -/
  basePath : String
  /-- Whether `os.MkdirAll(path.Join(basePath, p), 0700)` returned `nil`. -/
  mkdirAllOk : String → Bool
  /-- Value of `dbIsOk(scope.DB)`. -/
  dbOk : Bool
  /-- Successive chunks of bytes delivered by `Read` on `os.Stdin`. -/
  stdin : List (List Nat)
  /-- Whether `initDB(scope.DB)` returned `nil`. -/
  initDBOk : Bool
  /-- Whether `autoMigrateDB(scope.DB)` returned `nil`. -/
  autoMigrateDBOk : Bool
  cli : CliDispatch
  cfg : Cfg
  /-- Value of `os.Hostname()`. -/
  hostname : String
  /-- Value of `nsqd.NewNSQDOptions()`. -/
  defaults : NSQDOptions ρ
  /-- Whether `nsqd.PersistMetadata()` returned `nil`. -/
  persistMetadataOk : Bool
  /-- Whether `scanner.NewClamav(dsns)` returned a `nil` error. -/
  newClamavOk : Bool
  /-- Whether `c.Ping()` reported a healthy scanner. -/
  pingOk : Bool
  /-- Function `smtpd.GetDsnsFromString`: `none` is a parse error, otherwise the
  endpoints (each shown as `dsn.String()`). -/
  getDsnsFromString : String → Option (List String)
  /-- A SIGINT or SIGTERM is eventually delivered on `sigChan`. -/
  signal : Bool

/-- Effects issued by the supervisor, in program order. -/
inductive Event (ρ : Type)
  | scopeInit (ok : Bool)
  | mkdirAll (base p : String) (ok : Bool)
  | dbIsOk (ok : Bool)
  | prompt (driver source : String)
  | readLine (r : List Nat)
  | initDB (ok : Bool)
  | randSeed
  | autoMigrateDB (ok : Bool)
  | showAppHelp
  | signalNotify
  | newNSQD (opts : NSQDOptions ρ)
  | loadMetadata
  | persistMetadata (ok : Bool)
  | nsqdMain
  | newClamav (dsns : String) (ok : Bool)
  | clamavPing (ok : Bool)
  | smtpdListenAndServe (dsn : String)
  | logInfo (msg : String)
  | deliverdRun
  | signalReceived
  | producerStop
  | nsqdExit
  deriving DecidableEq, Repr

/-- The `log.Fatal*` call sites of `tmail.go`. -/
inductive Fatal
  | scopeInit
  | mkdirAll
  | initDB
  | seeYouSoon
  | autoMigrateDB
  | nothingToDo
  | persistMetadata
  | clamav
  | smtpdDsn
  deriving DecidableEq, Repr

/-- How a block of code ends. -/
inductive Outcome
  /-- Control reaches the end of the block. -/
  | ok
  /-- A `log.Fatal*` call: message, then `os.Exit(1)`. -/
  | fatal (f : Fatal)
  /-- Run-time panic: index out of range. -/
  | indexPanic
  /-- Blocked for ever on `<-sigChan`. -/
  | blocked
  deriving DecidableEq, Repr

/-- The events a block issued and how it ended. -/
structure Run (ρ : Type) where
  trace : List (Event ρ)
  outcome : Outcome

/-- Sequential composition: the second block runs only if the first one
reaches its end. -/
def Run.seq {ρ : Type} (a b : Run ρ) : Run ρ :=
  match a.outcome with
  | .ok => ⟨a.trace ++ b.trace, b.outcome⟩
  | _ => a

/-- Process exit status of a whole-program outcome (`none`: still running). -/
def exitCode : Outcome → Option Nat
  | .ok => some 0
  | .fatal _ => some 1
  | .indexPanic => some 2
  | .blocked => none

/-! ## `func init()` -/

/-- Lines 30-32: `scope.Init()`. -/
def initScope {ρ : Type} (e : Env ρ) : Run ρ :=
  if e.scopeInitOk then ⟨[.scopeInit true], .ok⟩
  else ⟨[.scopeInit false], .fatal .scopeInit⟩

/-- Lines 41-45: the loop over `requiredPaths`. -/
def mkdirPaths {ρ : Type} (e : Env ρ) : List String → Run ρ
  | [] => ⟨[], .ok⟩
  | p :: ps =>
    if e.mkdirAllOk p then
      Run.seq ⟨[.mkdirAll e.basePath p true], .ok⟩ (mkdirPaths e ps)
    else ⟨[.mkdirAll e.basePath p false], .fatal .mkdirAll⟩

def requiredPaths : List String := ["db", "nsq", "ssl"]

/-- Buffer size of a reader made by `bufio.NewReader`. -/
def defaultBufSize : Nat := 4096

/-- The search `bytes.IndexByte(buf, 10)` of `ReadSlice`: the bytes of the
buffer up to and including the first `\n`, if there is one. -/
def sliceToNewline : List Nat → Option (List Nat)
  | [] => none
  | c :: t => if c = 10 then some [10] else (sliceToNewline t).map (fun l => c :: l)

/-- The end of `ReadLine` on a slice that ends in `\n`: the `\n`, or the
`\r\n`, is dropped. -/
def trimLineEnd (line : List Nat) : List Nat :=
  if line.getLast? = some 10 then
    if 1 < line.length ∧ line.dropLast.getLast? = some 13 then line.dropLast.dropLast
    else line.dropLast
  else line

/-- The loop of `ReadSlice` inside `ReadLine`, on a reader whose buffer holds
`buf` (no `\n` in it, not full): `fill` makes one read; then the buffer is
searched for `\n`, and failing that the loop ends if the read reported end of
input or the buffer is full. Returns the line and what is left of standard
input. -/
def readLineLoop (buf : List Nat) : List (List Nat) → List Nat × List (List Nat)
  | [] => (buf, [])
  | chunk :: rest =>
    if chunk = [] then (buf, rest)
    else
      let room := defaultBufSize - buf.length
      let buf' := buf ++ chunk.take room
      let stdin' := if chunk.drop room = [] then rest else chunk.drop room :: rest
      match sliceToNewline buf' with
      | some line => (trimLineEnd line, stdin')
      | none =>
        if defaultBufSize ≤ buf'.length then
          (if buf'.getLast? = some 13 then buf'.dropLast else buf', stdin')
        else readLineLoop buf' rest

/-- Line 54: `bufio.NewReader(os.Stdin).ReadLine()`, a `ReadLine` on a new
reader. Returns `r` and what is left of standard input. -/
def readLine (stdin : List (List Nat)) : List Nat × List (List Nat) :=
  readLineLoop [] stdin

/-- What the prompt loop did: its events, the final value of `r` (`none` when
`r[0]` is evaluated on an empty `r`) and what is left of standard input. -/
structure Prompt (ρ : Type) where
  trace : List (Event ρ)
  answer : Option (List Nat)
  unread : List (List Nat)

/-- Number of reads that standard input can still serve with something. -/
def stdinSize : List (List Nat) → Nat
  | [] => 0
  | chunk :: rest => chunk.length + 1 + stdinSize rest

/-- Lines 52-58: the prompt loop, for at most `fuel` iterations. -/
def promptLoopAux {ρ : Type} (driver source : String) :
    Nat → List (List Nat) → Prompt ρ
  | 0, stdin => ⟨[], none, stdin⟩
  | fuel + 1, stdin =>
    let read := readLine stdin
    match read.1[0]? with
    | none => ⟨[.prompt driver source, .readLine read.1], none, read.2⟩
    | some b =>
      if b = 110 ∨ b = 121 then
        ⟨[.prompt driver source, .readLine read.1], some read.1, read.2⟩
      else
        let next : Prompt ρ := promptLoopAux driver source fuel read.2
        ⟨.prompt driver source :: .readLine read.1 :: next.trace, next.answer, next.unread⟩

/-- Lines 52-58: the prompt loop. Every iteration but the last takes something
from standard input, so `stdinSize stdin + 1` iterations are enough
(`promptLoopAux_fuel`). -/
def promptLoop {ρ : Type} (driver source : String) (stdin : List (List Nat)) : Prompt ρ :=
  promptLoopAux driver source (stdinSize stdin + 1) stdin

/-- Lines 50-66: the schema check and bootstrap. -/
def checkDB {ρ : Type} (e : Env ρ) : Run ρ :=
  if e.dbOk then ⟨[.dbIsOk true], .ok⟩
  else
    let loop : Prompt ρ := promptLoop e.cfg.dbDriver e.cfg.dbSource e.stdin
    match loop.answer with
    | none => ⟨.dbIsOk false :: loop.trace, .indexPanic⟩
    | some r =>
      match r[0]? with
      | none => ⟨.dbIsOk false :: loop.trace, .indexPanic⟩
      | some b =>
        if b = 121 then
          if e.initDBOk then ⟨.dbIsOk false :: loop.trace ++ [.initDB true], .ok⟩
          else ⟨.dbIsOk false :: loop.trace ++ [.initDB false], .fatal .initDB⟩
        else ⟨.dbIsOk false :: loop.trace, .fatal .seeYouSoon⟩

/-- The body of `func init()`. -/
def init {ρ : Type} (e : Env ρ) : Run ρ :=
  (initScope e).seq ((mkdirPaths e requiredPaths).seq (checkDB e))

/-! ## `func main()` -/

/-- Lines 103-139: the options handed to `nsqd.NewNSQD`. -/
def nsqdOptions {ρ : Type} (e : Env ρ) : NSQDOptions ρ :=
  let opts := e.defaults
  let opts := { opts with Logger := ⟨.discard, "", 0⟩ }
  let opts :=
    if e.cfg.nsqdEnableLogging then
      { opts with Logger :=
          ⟨.stdout, e.hostname ++ "(127.0.0.1) - NSQD :", Ldate ||| Ltime ||| Lmicroseconds⟩ }
    else opts
  let opts := { opts with Verbose := e.cfg.debugEnabled }
  let opts := { opts with DataPath := e.basePath ++ "/nsq" }
  let opts :=
    if e.cfg.clusterModeEnabled then
      { opts with NSQLookupdTCPAddresses := e.cfg.nsqLookupdTcpAddresses }
    else opts
  let opts := { opts with DeflateEnabled := true }
  let opts := { opts with MsgTimeout := 10 * Minute }
  let opts := { opts with MaxMsgTimeout := 15 * Hour }
  let opts := { opts with MaxReqTimeout := 1 * Hour }
  { opts with MemQueueSize := 0 }

/-- Lines 90-93: the "nothing to do" check. -/
def nothingToDoCheck {ρ : Type} (e : Env ρ) : Run ρ :=
  if !e.cfg.launchDeliverd && !e.cfg.launchSmtpd then ⟨[], .fatal .nothingToDo⟩
  else ⟨[], .ok⟩

/-- Lines 96-147: signal registration, queue construction and start. -/
def startQueue {ρ : Type} (e : Env ρ) : Run ρ :=
  if e.persistMetadataOk then
    ⟨[.signalNotify, .newNSQD (nsqdOptions e), .loadMetadata, .persistMetadata true,
      .nsqdMain], .ok⟩
  else
    ⟨[.signalNotify, .newNSQD (nsqdOptions e), .loadMetadata, .persistMetadata false],
      .fatal .persistMetadata⟩

/-- Lines 152-158: the scanner test. The result of `c.Ping()` is discarded. -/
def testClamav {ρ : Type} (e : Env ρ) : Run ρ :=
  if e.cfg.smtpdClamavEnabled then
    if e.newClamavOk then
      ⟨[.newClamav e.cfg.smtpdClamavDsns true, .clamavPing e.pingOk], .ok⟩
    else ⟨[.newClamav e.cfg.smtpdClamavDsns false], .fatal .clamav⟩
  else ⟨[], .ok⟩

/-- Lines 164-167: one listener goroutine and one log line per endpoint. -/
def launchEndpoints {ρ : Type} : List String → List (Event ρ)
  | [] => []
  | dsn :: rest =>
    .smtpdListenAndServe dsn :: .logInfo ("smtpd " ++ dsn ++ " launched.") ::
      launchEndpoints rest

/-- Lines 160-167. -/
def startEndpoints {ρ : Type} (e : Env ρ) : Run ρ :=
  match e.getDsnsFromString e.cfg.smtpdDsns with
  | none => ⟨[], .fatal .smtpdDsn⟩
  | some smtpdDsns => ⟨launchEndpoints smtpdDsns, .ok⟩

/-- Lines 150-168. -/
def startSmtpd {ρ : Type} (e : Env ρ) : Run ρ :=
  if e.cfg.launchSmtpd then (testClamav e).seq (startEndpoints e)
  else ⟨[], .ok⟩

/-- Line 172: `go deliverd.Run()`. -/
def startDeliverd {ρ : Type} (_e : Env ρ) : Run ρ :=
  ⟨[.deliverdRun], .ok⟩

/-- Lines 174-181: wait for the signal, then shut down. -/
def awaitSignal {ρ : Type} (e : Env ρ) : Run ρ :=
  if e.signal then
    ⟨[.signalReceived, .logInfo "Exiting...", .producerStop, .nsqdExit], .ok⟩
  else ⟨[], .blocked⟩

/-- Lines 85-183: `app.Action`. -/
def action {ρ : Type} (e : Env ρ) (args : List String) : Run ρ :=
  if args.length ≠ 0 then ⟨[.showAppHelp], .ok⟩
  else
    (nothingToDoCheck e).seq ((startQueue e).seq ((startSmtpd e).seq
      ((startDeliverd e).seq (awaitSignal e))))

/-- Line 184: `app.Run(os.Args)`. -/
def appRun {ρ : Type} (e : Env ρ) : Run ρ :=
  match e.cli with
  | .command => ⟨[], .ok⟩
  | .action args => action e args

/-- Lines 74-76: `autoMigrateDB`. -/
def migrate {ρ : Type} (e : Env ρ) : Run ρ :=
  if e.autoMigrateDBOk then ⟨[.randSeed, .autoMigrateDB true], .ok⟩
  else ⟨[.randSeed, .autoMigrateDB false], .fatal .autoMigrateDB⟩

/-- The body of `func main()`. -/
def main {ρ : Type} (e : Env ρ) : Run ρ :=
  (migrate e).seq (appRun e)

/-- The whole process: package initialisation, then `main`. -/
def program {ρ : Type} (e : Env ρ) : Run ρ :=
  (init e).seq (main e)

/-! ## Observations on traces -/

/-- The six kinds of startup effect of the supervisor: `scope.Init`, creation of
a storage directory, `LoadMetadata`, `nsqd.Main`, start of a frontend
endpoint, start of the delivery worker. -/
def Event.isStartupStep {ρ : Type} : Event ρ → Bool
  | .scopeInit _ => true
  | .mkdirAll _ _ _ => true
  | .loadMetadata => true
  | .nsqdMain => true
  | .smtpdListenAndServe _ => true
  | .deliverdRun => true
  | _ => false

/-- The effects of the schema check and bootstrap (lines 50-66). -/
def Event.isSchemaStep {ρ : Type} : Event ρ → Bool
  | .dbIsOk _ => true
  | .prompt _ _ => true
  | .readLine _ => true
  | .initDB _ => true
  | _ => false

/-- Start of a component: the durable queue, a frontend endpoint or the
delivery worker. -/
def Event.isComponentStart {ρ : Type} : Event ρ → Bool
  | .nsqdMain => true
  | .smtpdListenAndServe _ => true
  | .deliverdRun => true
  | _ => false

/-- The byte slices returned by the `ReadLine` calls of a trace, in order. -/
def linesRead {ρ : Type} : List (Event ρ) → List (List Nat)
  | [] => []
  | .readLine r :: t => r :: linesRead t
  | _ :: t => linesRead t

/-- An answer line as the prompt expects it: at least one byte, no `\n` inside,
no `\r` at its end, and short enough to fit the reader's buffer together
with its `\n`. -/
def AnswerLine (l : List Nat) : Prop :=
  l ≠ [] ∧ 10 ∉ l ∧ l.getLast? ≠ some 13 ∧ l.length < defaultBufSize

instance : DecidablePred AnswerLine := fun l => by
  unfold AnswerLine
  infer_instance

/-- The read that delivers one answer line: its bytes followed by `\n`. -/
def lineChunk (l : List Nat) : List Nat := l ++ [10]

/-- The endpoints the configuration asks the frontend to serve: none when the
frontend is disabled or its endpoint specification does not parse. -/
def frontendEndpoints {ρ : Type} (e : Env ρ) : List String :=
  if e.cfg.launchSmtpd then (e.getDsnsFromString e.cfg.smtpdDsns).getD [] else []



/-- The effects of `func init()`. -/
def Event.isInitStep {ρ : Type} : Event ρ → Bool
  | .scopeInit _ => true
  | .mkdirAll _ _ _ => true
  | x => x.isSchemaStep

/-- The effects that can precede the start of the queue. -/
def Event.isBeforeQueue {ρ : Type} : Event ρ → Bool
  | .randSeed => true
  | .autoMigrateDB _ => true
  | .showAppHelp => true
  | .signalNotify => true
  | .newNSQD _ => true
  | .loadMetadata => true
  | .persistMetadata _ => true
  | x => x.isInitStep

/-- The effects of the frontend start (lines 150-168). -/
def Event.isSmtpdStep {ρ : Type} : Event ρ → Bool
  | .newClamav _ _ => true
  | .clamavPing _ => true
  | .smtpdListenAndServe _ => true
  | .logInfo _ => true
  | _ => false

/-- The effects that can follow the start of the queue. -/
def Event.isAfterQueue {ρ : Type} : Event ρ → Bool
  | .deliverdRun => true
  | .signalReceived => true
  | .producerStop => true
  | .nsqdExit => true
  | x => x.isSmtpdStep

/-- Lines 150-181: what `app.Action` does once the queue has been started. -/
def afterQueue {ρ : Type} (e : Env ρ) : Run ρ :=
  (startSmtpd e).seq ((startDeliverd e).seq (awaitSignal e))

/-- The events of a run up to and including the start of the queue, when
every step up to there succeeds. -/
def bootTrace {ρ : Type} (e : Env ρ) : List (Event ρ) :=
  [.scopeInit true, .mkdirAll e.basePath "db" true, .mkdirAll e.basePath "nsq" true,
    .mkdirAll e.basePath "ssl" true] ++ (checkDB e).trace ++
  [.randSeed, .autoMigrateDB true, .signalNotify, .newNSQD (nsqdOptions e), .loadMetadata,
    .persistMetadata true, .nsqdMain]

/-! ## Sample environments -/

/-- Library defaults used in the examples. -/
def sampleDefaults : NSQDOptions Unit :=
  { Logger := ⟨.stdout, "", 0⟩, Verbose := false, DataPath := "", NSQLookupdTCPAddresses := [],
    DeflateEnabled := false, MsgTimeout := 60 * Second, MaxMsgTimeout := 15 * Minute,
    MaxReqTimeout := 1 * Hour, MemQueueSize := 10000, others := () }

/-- Frontend and worker enabled, no scanner, no cluster. -/
def sampleCfg : Cfg :=
  { dbDriver := "sqlite3", dbSource := "tmail.db", launchDeliverd := true, launchSmtpd := true,
    nsqdEnableLogging := false, debugEnabled := false, clusterModeEnabled := false,
    nsqLookupdTcpAddresses := ["127.0.0.1:4160"], smtpdClamavEnabled := false,
    smtpdClamavDsns := "/var/run/clamd.sock", smtpdDsns := "0.0.0.0:25;0.0.0.0:587" }

/-- Every collaborator succeeds, the database is up to date, two endpoints
are configured and a termination signal eventually arrives. -/
def sampleEnv : Env Unit :=
  { scopeInitOk := true, basePath := "/opt/tmail", mkdirAllOk := fun _ => true, dbOk := true,
    stdin := [], initDBOk := true, autoMigrateDBOk := true, cli := .action [],
    cfg := sampleCfg, hostname := "mx", defaults := sampleDefaults, persistMetadataOk := true,
    newClamavOk := true, pingOk := true,
    getDsnsFromString := fun _ => some ["0.0.0.0:25", "0.0.0.0:587"], signal := true }

/-- Frontend and scanner enabled; the scanner cannot be connected to. -/
def scannerDownEnv : Env Unit :=
  { sampleEnv with
    cfg := { sampleCfg with smtpdClamavEnabled := true }, newClamavOk := false, pingOk := false }

/-- Frontend and scanner enabled; the connection succeeds, the health check fails. -/
def pingFailEnv : Env Unit :=
  { sampleEnv with
    cfg := { sampleCfg with smtpdClamavEnabled := true }, newClamavOk := true, pingOk := false }

/-- Worker only: the frontend is disabled, the scanner feature is enabled and
the scanner cannot be connected to. -/
def workerOnlyEnv : Env Unit :=
  { sampleEnv with
    cfg := { sampleCfg with launchSmtpd := false, smtpdClamavEnabled := true },
    newClamavOk := false, pingOk := false }

/-- Frontend only: the worker-enabled flag is off. -/
def frontendOnlyEnv : Env Unit :=
  { sampleEnv with cfg := { sampleCfg with launchDeliverd := false } }

/-- Cluster mode on. -/
def clusterEnv : Env Unit :=
  { sampleEnv with cfg := { sampleCfg with clusterModeEnabled := true } }

/-- Persisting the queue metadata fails. -/
def persistFailEnv : Env Unit :=
  { sampleEnv with persistMetadataOk := false }

/-- Tables are missing; the operator types `x`, Enter, then `yes`, Enter, each
line delivered by its own read. -/
def acceptEnv : Env Unit :=
  { sampleEnv with dbOk := false, stdin := [[120, 10], [121, 101, 115, 10]] }

/-- Tables are missing; the operator types `no`, Enter. -/
def declineEnv : Env Unit :=
  { sampleEnv with dbOk := false, stdin := [[110, 111, 10]] }

/-- Tables are missing; the answers `x` and `yes` arrive together in one read
(standard input is a pipe or a file holding both lines). -/
def pipedEnv : Env Unit :=
  { sampleEnv with dbOk := false, stdin := [[120, 10, 121, 101, 115, 10]] }

/-- Tables are missing; the operator answers `y`, Enter, and `initDB` fails. -/
def initFailEnv : Env Unit :=
  { sampleEnv with dbOk := false, stdin := [[121, 10]], initDBOk := false }

/-- Tables are missing; the operator presses Enter on an empty line. -/
def emptyLineEnv : Env Unit :=
  { sampleEnv with dbOk := false, stdin := [[10]] }

/-- Tables are missing; standard input is at end of input. -/
def endOfInputEnv : Env Unit :=
  { sampleEnv with dbOk := false, stdin := [] }

/-! ## Composition lemmas -/

@[simp]
theorem Run.seq_ok {ρ : Type} (t : List (Event ρ)) (b : Run ρ) :
    Run.seq ⟨t, .ok⟩ b = ⟨t ++ b.trace, b.outcome⟩ := rfl

@[simp]
theorem Run.seq_fatal {ρ : Type} (t : List (Event ρ)) (f : Fatal) (b : Run ρ) :
    Run.seq ⟨t, .fatal f⟩ b = ⟨t, .fatal f⟩ := rfl

@[simp]
theorem Run.seq_indexPanic {ρ : Type} (t : List (Event ρ)) (b : Run ρ) :
    Run.seq ⟨t, .indexPanic⟩ b = ⟨t, .indexPanic⟩ := rfl

@[simp]
theorem Run.seq_blocked {ρ : Type} (t : List (Event ρ)) (b : Run ρ) :
    Run.seq ⟨t, .blocked⟩ b = ⟨t, .blocked⟩ := rfl

theorem Run.seq_of_ok {ρ : Type} (a b : Run ρ) (h : a.outcome = .ok) :
    a.seq b = ⟨a.trace ++ b.trace, b.outcome⟩ := by
  cases a with
  | mk t o => subst h; rfl

theorem Run.seq_of_ne_ok {ρ : Type} (a b : Run ρ) (h : a.outcome ≠ .ok) :
    a.seq b = a := by
  cases a with
  | mk t o => cases o <;> first | rfl | exact absurd rfl h

/-! ## Reading a line -/

theorem sliceToNewline_lineChunk (l : List Nat) (h : 10 ∉ l) :
    sliceToNewline (lineChunk l) = some (lineChunk l) := by
  induction l with
  | nil => simp [lineChunk, sliceToNewline]
  | cons c t ih =>
    have hc : c ≠ 10 := fun hc => h (by simp [hc])
    have ht : 10 ∉ t := fun ht => h (List.mem_cons_of_mem _ ht)
    have ih := ih ht
    simp only [lineChunk] at ih ⊢
    simp [sliceToNewline, hc, ih]

theorem trimLineEnd_lineChunk (l : List Nat) (h : l.getLast? ≠ some 13) :
    trimLineEnd (lineChunk l) = l := by
  simp [trimLineEnd, lineChunk, h]

/-- One read that delivers exactly one answer line is returned as that line. -/
theorem readLine_lineChunk (l : List Nat) (rest : List (List Nat)) (h : AnswerLine l) :
    readLine (lineChunk l :: rest) = (l, rest) := by
  obtain ⟨_, h10, h13, hlen⟩ := h
  have hne : lineChunk l ≠ [] := by simp [lineChunk]
  have hl : (lineChunk l).length ≤ defaultBufSize := by
    simp [lineChunk]; omega
  have htake : (lineChunk l).take defaultBufSize = lineChunk l := List.take_of_length_le hl
  have hdrop : (lineChunk l).drop defaultBufSize = [] := List.drop_of_length_le hl
  simp [readLine, readLineLoop, hne, htake, hdrop, sliceToNewline_lineChunk l h10,
    trimLineEnd_lineChunk l h13]

/-- Every read takes something from a standard input that is not exhausted. -/
theorem readLineLoop_size (buf : List Nat) (stdin : List (List Nat))
    (hb : buf.length < defaultBufSize) (hs : stdin ≠ []) :
    stdinSize (readLineLoop buf stdin).2 < stdinSize stdin := by
  induction stdin generalizing buf with
  | nil => exact absurd rfl hs
  | cons chunk rest ih =>
    unfold readLineLoop
    by_cases hc : chunk = []
    · simp [hc, stdinSize]
    · have hdrop : (chunk.drop (defaultBufSize - buf.length)).length < chunk.length := by
        have : 0 < chunk.length := List.length_pos.2 hc
        simp only [List.length_drop]
        omega
      have hleft : stdinSize (if chunk.drop (defaultBufSize - buf.length) = [] then rest
          else chunk.drop (defaultBufSize - buf.length) :: rest) <
          stdinSize (chunk :: rest) := by
        split
        · simp only [stdinSize]; omega
        · simp only [stdinSize]; omega
      simp only [hc, if_false]
      split
      · exact hleft
      · split
        · exact hleft
        · rename_i hfull
          by_cases hr : rest = []
          · subst hr
            simp [readLineLoop, stdinSize]
          · have := ih (buf ++ chunk.take (defaultBufSize - buf.length)) (by omega) hr
            simp only [stdinSize]
            omega

theorem readLine_size (stdin : List (List Nat)) (hs : stdin ≠ []) :
    stdinSize (readLine stdin).2 < stdinSize stdin :=
  readLineLoop_size [] stdin (by simp [defaultBufSize]) hs

theorem readLine_nil : readLine [] = ([], []) := rfl

/-! ## The prompt loop -/

/-- The result of the loop does not depend on the fuel once there is enough of
it: the loop always ends by itself. -/
theorem promptLoopAux_fuel {ρ : Type} (d s : String) (f1 f2 : Nat) (stdin : List (List Nat))
    (h1 : stdinSize stdin < f1) (h2 : stdinSize stdin < f2) :
    (promptLoopAux d s f1 stdin : Prompt ρ) = promptLoopAux d s f2 stdin := by
  induction f1 generalizing f2 stdin with
  | zero => omega
  | succ n ih =>
    cases f2 with
    | zero => omega
    | succ m =>
      simp only [promptLoopAux]
      split
      · rfl
      · split
        · rfl
        · rename_i b hb _
          have hne : stdin ≠ [] := by
            rintro rfl
            simp [readLine_nil] at hb
          have hlt := readLine_size stdin hne
          rw [ih m (readLine stdin).2 (by omega) (by omega)]

theorem promptLoopAux_steps {ρ : Type} (d s : String) (fuel : Nat) (stdin : List (List Nat)) :
    ∀ x ∈ (promptLoopAux d s fuel stdin : Prompt ρ).trace,
      x = .prompt d s ∨ ∃ r, x = .readLine r := by
  induction fuel generalizing stdin with
  | zero => simp [promptLoopAux]
  | succ n ih =>
    intro x hx
    simp only [promptLoopAux] at hx
    split at hx
    · simp at hx; rcases hx with rfl | rfl <;> simp
    · split at hx
      · simp at hx; rcases hx with rfl | rfl <;> simp
      · simp at hx
        rcases hx with rfl | rfl | hx
        · simp
        · simp
        · exact ih _ x hx

theorem promptLoop_steps {ρ : Type} (d s : String) (stdin : List (List Nat)) :
    ∀ x ∈ (promptLoop d s stdin : Prompt ρ).trace,
      x = .prompt d s ∨ ∃ r, x = .readLine r :=
  promptLoopAux_steps d s _ stdin

/-- With one answer line per read, the loop reads up to and including the
first line that starts with `y` or `n`, leaves that line in `r` and the
later reads untouched. -/
theorem promptLoopAux_decided {ρ : Type} (d s : String) (pre : List (List Nat)) (b : Nat)
    (tl : List Nat) (rest : List (List Nat)) (fuel : Nat) (hf : pre.length < fuel)
    (hpre : ∀ r ∈ pre, AnswerLine r ∧ r[0]? ≠ some 110 ∧ r[0]? ≠ some 121)
    (hl : AnswerLine (b :: tl)) (hb : b = 121 ∨ b = 110) :
    (promptLoopAux d s fuel (pre.map lineChunk ++ lineChunk (b :: tl) :: rest) :
      Prompt ρ).answer = some (b :: tl) ∧
    linesRead (promptLoopAux d s fuel (pre.map lineChunk ++ lineChunk (b :: tl) :: rest) :
      Prompt ρ).trace = pre ++ [b :: tl] ∧
    (promptLoopAux d s fuel (pre.map lineChunk ++ lineChunk (b :: tl) :: rest) :
      Prompt ρ).unread = rest := by
  induction pre generalizing fuel with
  | nil =>
    cases fuel with
    | zero => simp at hf
    | succ n =>
      have hb2 : b = 110 ∨ b = 121 := hb.symm
      simp [promptLoopAux, readLine_lineChunk _ _ hl, hb2, linesRead]
  | cons r pre ih =>
    cases fuel with
    | zero => simp at hf
    | succ n =>
      obtain ⟨hr, h1, h2⟩ := hpre r (List.mem_cons_self _ _)
      have ih := ih n (by simpa using hf) (fun r hr => hpre r (List.mem_cons_of_mem _ hr))
      obtain ⟨c, t, rfl⟩ : ∃ c t, r = c :: t := by
        cases r with
        | nil => exact absurd rfl hr.1
        | cons c t => exact ⟨c, t, rfl⟩
      have hc1 : c ≠ 110 := by simpa using h1
      have hc2 : c ≠ 121 := by simpa using h2
      simp [promptLoopAux, readLine_lineChunk _ _ hr, hc1, hc2, linesRead, ih]

theorem stdinSize_length (stdin : List (List Nat)) : stdin.length ≤ stdinSize stdin := by
  induction stdin with
  | nil => simp [stdinSize]
  | cons c t ih => simp only [stdinSize, List.length_cons]; omega

theorem promptLoop_decided {ρ : Type} (d s : String) (pre : List (List Nat)) (b : Nat)
    (tl : List Nat) (rest : List (List Nat))
    (hpre : ∀ r ∈ pre, AnswerLine r ∧ r[0]? ≠ some 110 ∧ r[0]? ≠ some 121)
    (hl : AnswerLine (b :: tl)) (hb : b = 121 ∨ b = 110) :
    (promptLoop d s (pre.map lineChunk ++ lineChunk (b :: tl) :: rest) :
      Prompt ρ).answer = some (b :: tl) ∧
    linesRead (promptLoop d s (pre.map lineChunk ++ lineChunk (b :: tl) :: rest) :
      Prompt ρ).trace = pre ++ [b :: tl] ∧
    (promptLoop d s (pre.map lineChunk ++ lineChunk (b :: tl) :: rest) :
      Prompt ρ).unread = rest := by
  refine promptLoopAux_decided d s pre b tl rest _ ?_ hpre hl hb
  have := stdinSize_length (pre.map lineChunk ++ lineChunk (b :: tl) :: rest)
  simp at this
  omega

/-! ## The schema bootstrap block -/

theorem promptLoop_schema {ρ : Type} (d s : String) (l : List (List Nat)) :
    ∀ x ∈ (promptLoop d s l : Prompt ρ).trace, x.isSchemaStep = true := by
  intro x hx
  rcases promptLoop_steps d s l x hx with rfl | ⟨r, rfl⟩ <;> rfl

theorem checkDB_schema {ρ : Type} (e : Env ρ) :
    ∀ x ∈ (checkDB e).trace, x.isSchemaStep = true := by
  intro x hx
  have hl := promptLoop_schema (ρ := ρ) e.cfg.dbDriver e.cfg.dbSource e.stdin
  unfold checkDB at hx
  split at hx
  · simp at hx; subst hx; rfl
  · simp only at hx
    split at hx
    · simp at hx; rcases hx with rfl | hx
      · rfl
      · exact hl x hx
    · split at hx
      · simp at hx; rcases hx with rfl | hx
        · rfl
        · exact hl x hx
      · split at hx
        · split at hx <;>
          · simp at hx
            rcases hx with rfl | hx | rfl
            · rfl
            · exact hl x hx
            · rfl
        · simp at hx; rcases hx with rfl | hx
          · rfl
          · exact hl x hx

theorem checkDB_filter_startup {ρ : Type} (e : Env ρ) :
    (checkDB e).trace.filter Event.isStartupStep = [] := by
  rw [List.filter_eq_nil_iff]
  intro x hx
  have := checkDB_schema e x hx
  cases x <;> simp_all [Event.isSchemaStep, Event.isStartupStep]

theorem launchEndpoints_filter_startup {ρ : Type} (l : List String) :
    (launchEndpoints l : List (Event ρ)).filter Event.isStartupStep =
      l.map Event.smtpdListenAndServe := by
  induction l with
  | nil => rfl
  | cons d rest ih => simp [launchEndpoints, Event.isStartupStep, ih]

/-! ## Shape of `init` -/

theorem init_steps {ρ : Type} (e : Env ρ) :
    ∀ x ∈ (init e).trace, x.isInitStep = true := by
  have hdb := checkDB_schema e
  simp only [init, initScope, mkdirPaths, requiredPaths]
  cases e.scopeInitOk <;> simp [Event.isInitStep]
  cases e.mkdirAllOk "db" <;> simp [Event.isInitStep]
  cases e.mkdirAllOk "nsq" <;> simp [Event.isInitStep]
  cases e.mkdirAllOk "ssl" <;> simp [Event.isInitStep]
  generalize checkDB e = c at hdb
  obtain ⟨ct, co⟩ := c
  cases co <;> simp [Event.isInitStep] <;>
  · intro x hx
    have := hdb x hx
    cases x <;> simp_all [Event.isSchemaStep]

theorem init_ok {ρ : Type} (e : Env ρ) (h : (init e).outcome = .ok) :
    (checkDB e).outcome = .ok ∧
    (init e).trace =
      [.scopeInit true, .mkdirAll e.basePath "db" true, .mkdirAll e.basePath "nsq" true,
        .mkdirAll e.basePath "ssl" true] ++ (checkDB e).trace := by
  revert h
  simp only [init, initScope, mkdirPaths, requiredPaths]
  cases e.scopeInitOk <;> simp
  cases e.mkdirAllOk "db" <;> simp
  cases e.mkdirAllOk "nsq" <;> simp
  cases e.mkdirAllOk "ssl" <;> simp

/-! ## Shape of `main` -/

/-- A run of `main` that starts the queue. -/
theorem main_queue_started {ρ : Type} (e : Env ρ) (h : Event.nsqdMain ∈ (main e).trace) :
    e.cli = .action [] ∧ e.persistMetadataOk = true ∧
    main e = ⟨[.randSeed, .autoMigrateDB true, .signalNotify, .newNSQD (nsqdOptions e),
      .loadMetadata, .persistMetadata true, .nsqdMain] ++ (afterQueue e).trace,
      (afterQueue e).outcome⟩ := by
  revert h
  simp only [main, migrate, appRun, action, nothingToDoCheck, startQueue]
  cases e.autoMigrateDBOk <;> simp
  cases e.cli with
  | command => simp
  | action args =>
    cases args <;> simp
    cases e.cfg.launchDeliverd <;> cases e.cfg.launchSmtpd <;> simp <;>
    cases e.persistMetadataOk <;> simp [afterQueue]

/-- A run of `main` that does not start the queue. -/
theorem main_queue_not_started {ρ : Type} (e : Env ρ)
    (h : Event.nsqdMain ∉ (main e).trace) :
    (∀ x ∈ (main e).trace, x.isBeforeQueue = true ∧ x.isInitStep = false) ∧
      (main e).outcome ≠ .blocked ∧ (main e).outcome ≠ .fatal .clamav ∧
      (main e).outcome ≠ .fatal .smtpdDsn ∧
      (e.cli = .action [] → (main e).outcome ≠ .ok) ∧
      (∀ o, Event.newNSQD o ∈ (main e).trace → o = nsqdOptions e) ∧
      (Event.persistMetadata false ∈ (main e).trace →
        (main e).outcome = .fatal .persistMetadata) := by
  revert h
  simp only [main, migrate, appRun, action, nothingToDoCheck, startQueue]
  cases e.autoMigrateDBOk <;>
    simp [Event.isBeforeQueue, Event.isInitStep, Event.isSchemaStep]
  cases e.cli with
  | command => simp
  | action args =>
    cases args <;> simp [Event.isBeforeQueue, Event.isInitStep, Event.isSchemaStep]
    cases e.cfg.launchDeliverd <;> cases e.cfg.launchSmtpd <;>
      simp [Event.isBeforeQueue, Event.isInitStep, Event.isSchemaStep] <;>
    cases e.persistMetadataOk <;>
      simp [Event.isBeforeQueue, Event.isInitStep, Event.isSchemaStep]

theorem init_outcome {ρ : Type} (e : Env ρ) :
    (init e).outcome ≠ .blocked ∧ (init e).outcome ≠ .fatal .clamav ∧
      (init e).outcome ≠ .fatal .smtpdDsn ∧ (init e).outcome ≠ .fatal .nothingToDo ∧
      (init e).outcome ≠ .fatal .persistMetadata := by
  simp only [init, initScope, mkdirPaths, requiredPaths, checkDB]
  cases e.scopeInitOk <;> simp
  cases e.mkdirAllOk "db" <;> simp
  cases e.mkdirAllOk "nsq" <;> simp
  cases e.mkdirAllOk "ssl" <;> simp
  cases e.dbOk <;> simp
  split
  · simp
  · split
    · simp
    · split
      · cases e.initDBOk <;> simp
      · simp

/-- Every run either stops before the queue is started, or starts it after a
fully successful boot. -/
theorem program_cases {ρ : Type} (e : Env ρ) :
    ((∀ x ∈ (program e).trace, x.isBeforeQueue = true) ∧
      (program e).outcome ≠ .blocked ∧ (program e).outcome ≠ .fatal .clamav ∧
      (program e).outcome ≠ .fatal .smtpdDsn ∧
      (e.cli = .action [] → (program e).outcome ≠ .ok) ∧
      (∀ o, Event.newNSQD o ∈ (program e).trace → o = nsqdOptions e) ∧
      (Event.persistMetadata false ∈ (program e).trace →
        (program e).outcome = .fatal .persistMetadata)) ∨
    (e.cli = .action [] ∧ (checkDB e).outcome = .ok ∧
      program e = ⟨bootTrace e ++ (afterQueue e).trace, (afterQueue e).outcome⟩) := by
  have hi := init_steps e
  have hb : ∀ x ∈ (init e).trace, x.isBeforeQueue = true := fun x hx => by
    have := hi x hx
    cases x <;> simp_all [Event.isBeforeQueue, Event.isInitStep]
  have hn : ∀ o, Event.newNSQD o ∉ (init e).trace := fun o ho => by
    have := hi _ ho; simp [Event.isInitStep, Event.isSchemaStep] at this
  have hpm : Event.persistMetadata false ∉ (init e).trace := fun ho => by
    have := hi _ ho; simp [Event.isInitStep, Event.isSchemaStep] at this
  by_cases hok : (init e).outcome = .ok
  · obtain ⟨hc, ht⟩ := init_ok e hok
    have hp : program e = ⟨(init e).trace ++ (main e).trace, (main e).outcome⟩ :=
      Run.seq_of_ok _ _ hok
    by_cases hq : Event.nsqdMain ∈ (main e).trace
    · obtain ⟨h1, _, hm⟩ := main_queue_started e hq
      refine Or.inr ⟨h1, hc, ?_⟩
      rw [hp, hm, ht]
      simp [bootTrace]
    · obtain ⟨hm, h1, h2, h3, h4, h5, h6⟩ := main_queue_not_started e hq
      refine Or.inl ?_
      rw [hp]
      refine ⟨fun x hx => ?_, h1, h2, h3, h4, fun o ho => ?_, fun ho => ?_⟩
      · rcases List.mem_append.1 hx with hx | hx
        · exact hb x hx
        · exact (hm x hx).1
      · rcases List.mem_append.1 ho with ho | ho
        · exact absurd ho (hn o)
        · exact h5 o ho
      · rcases List.mem_append.1 ho with ho | ho
        · exact absurd ho hpm
        · exact h6 ho
  · have hp : program e = init e := Run.seq_of_ne_ok _ _ hok
    obtain ⟨h1, h2, h3, _⟩ := init_outcome e
    refine Or.inl ?_
    rw [hp]
    exact ⟨hb, h1, h2, h3, fun _ => hok, fun o ho => absurd ho (hn o),
      fun ho => absurd ho hpm⟩

/-! ## After the queue has been started -/

theorem launchEndpoints_steps {ρ : Type} (l : List String) :
    ∀ x ∈ (launchEndpoints l : List (Event ρ)), x.isSmtpdStep = true := by
  induction l with
  | nil => simp [launchEndpoints]
  | cons d rest ih =>
    simp only [launchEndpoints, List.mem_cons]
    rintro x (rfl | rfl | hx)
    · rfl
    · rfl
    · exact ih x hx

theorem startSmtpd_steps {ρ : Type} (e : Env ρ) :
    ∀ x ∈ (startSmtpd e).trace, x.isSmtpdStep = true := by
  simp only [startSmtpd, testClamav, startEndpoints]
  cases e.cfg.launchSmtpd <;> simp
  cases e.cfg.smtpdClamavEnabled <;> simp
  · cases e.getDsnsFromString e.cfg.smtpdDsns with
    | none => simp
    | some l => simpa using launchEndpoints_steps l
  · cases e.newClamavOk <;> simp [Event.isSmtpdStep]
    cases e.getDsnsFromString e.cfg.smtpdDsns with
    | none => simp [Event.isSmtpdStep]
    | some l => simpa [Event.isSmtpdStep] using launchEndpoints_steps l

/-- The frontend start succeeds: exactly the configured endpoints are started. -/
theorem startSmtpd_ok {ρ : Type} (e : Env ρ) (h : (startSmtpd e).outcome = .ok) :
    (startSmtpd e).trace.filter Event.isStartupStep =
      (frontendEndpoints e).map Event.smtpdListenAndServe := by
  revert h
  simp only [startSmtpd, testClamav, startEndpoints, frontendEndpoints]
  cases e.cfg.launchSmtpd <;> simp
  cases e.cfg.smtpdClamavEnabled <;> simp
  · cases e.getDsnsFromString e.cfg.smtpdDsns with
    | none => simp
    | some l => simp [launchEndpoints_filter_startup]
  · cases e.newClamavOk <;> simp
    cases e.getDsnsFromString e.cfg.smtpdDsns with
    | none => simp
    | some l => simp [launchEndpoints_filter_startup, Event.isStartupStep]

/-- The frontend start fails: the error is fatal and no endpoint is started. -/
theorem startSmtpd_not_ok {ρ : Type} (e : Env ρ) (h : (startSmtpd e).outcome ≠ .ok) :
    ((startSmtpd e).outcome = .fatal .clamav ∨ (startSmtpd e).outcome = .fatal .smtpdDsn) ∧
      ∀ x ∈ (startSmtpd e).trace, x.isComponentStart = false := by
  revert h
  simp only [startSmtpd, testClamav, startEndpoints]
  cases e.cfg.launchSmtpd <;> simp
  cases e.cfg.smtpdClamavEnabled <;> simp
  · cases e.getDsnsFromString e.cfg.smtpdDsns with
    | none => simp
    | some l => simp
  · cases e.newClamavOk <;> simp [Event.isComponentStart]
    cases e.getDsnsFromString e.cfg.smtpdDsns with
    | none => simp [Event.isComponentStart]
    | some l => simp

theorem afterQueue_cases {ρ : Type} (e : Env ρ) :
    ((startSmtpd e).outcome = .ok ∧
      afterQueue e = ⟨(startSmtpd e).trace ++ .deliverdRun :: (awaitSignal e).trace,
        (awaitSignal e).outcome⟩) ∨
    ((startSmtpd e).outcome ≠ .ok ∧ afterQueue e = startSmtpd e) := by
  by_cases h : (startSmtpd e).outcome = .ok
  · refine Or.inl ⟨h, ?_⟩
    rw [afterQueue, Run.seq_of_ok _ _ h]
    simp [startDeliverd]
  · exact Or.inr ⟨h, Run.seq_of_ne_ok _ _ h⟩

theorem afterQueue_steps {ρ : Type} (e : Env ρ) :
    ∀ x ∈ (afterQueue e).trace, x.isAfterQueue = true := by
  have hs : ∀ x ∈ (startSmtpd e).trace, x.isAfterQueue = true := fun x hx => by
    have := startSmtpd_steps e x hx
    cases x <;> simp_all [Event.isAfterQueue, Event.isSmtpdStep]
  rcases afterQueue_cases e with ⟨_, h⟩ | ⟨_, h⟩
  · rw [h]
    intro x hx
    simp only [List.mem_append, List.mem_cons] at hx
    rcases hx with hx | rfl | hx
    · exact hs x hx
    · rfl
    · revert hx
      simp only [awaitSignal]
      cases e.signal <;> simp
      rintro (rfl | rfl | rfl | rfl) <;> rfl
  · rw [h]; exact hs

/-! ## Lines read and the schema decision -/

theorem linesRead_append {ρ : Type} (a b : List (Event ρ)) :
    linesRead (a ++ b) = linesRead a ++ linesRead b := by
  induction a with
  | nil => rfl
  | cons x t ih => cases x <;> simp [linesRead, ih]

theorem linesRead_eq_nil {ρ : Type} (a : List (Event ρ))
    (h : ∀ x ∈ a, ∀ r, x ≠ Event.readLine r) : linesRead a = [] := by
  induction a with
  | nil => rfl
  | cons x t ih =>
    have ht : ∀ y ∈ t, ∀ r, y ≠ Event.readLine r := fun y hy => h y (List.mem_cons_of_mem _ hy)
    have hx := h x (List.mem_cons_self _ _)
    cases x <;> simp_all [linesRead]

/-- The schema block when tables are missing and an answer is given, one
answer line per read. -/
theorem checkDB_decided {ρ : Type} (e : Env ρ) (pre : List (List Nat)) (b : Nat)
    (tl : List Nat) (rest : List (List Nat)) (hdb : e.dbOk = false)
    (hin : e.stdin = pre.map lineChunk ++ lineChunk (b :: tl) :: rest)
    (hpre : ∀ r ∈ pre, AnswerLine r ∧ r[0]? ≠ some 110 ∧ r[0]? ≠ some 121)
    (hl : AnswerLine (b :: tl)) (hb : b = 121 ∨ b = 110) :
    linesRead (checkDB e).trace = pre ++ [b :: tl] ∧
    ((∃ ok, Event.initDB ok ∈ (checkDB e).trace) ↔ b = 121) ∧
    (Event.initDB true ∈ (checkDB e).trace ↔ b = 121 ∧ e.initDBOk = true) ∧
    (b = 121 → e.initDBOk = false → (checkDB e).outcome = .fatal .initDB) ∧
    (b = 110 → (checkDB e).outcome = .fatal .seeYouSoon) := by
  obtain ⟨h2, h1, _⟩ := promptLoop_decided (ρ := ρ) e.cfg.dbDriver e.cfg.dbSource pre b tl rest
    hpre hl hb
  have hs := promptLoop_steps (ρ := ρ) e.cfg.dbDriver e.cfg.dbSource e.stdin
  rw [← hin] at h1 h2
  have hni : ∀ ok, Event.initDB ok ∉
      (promptLoop e.cfg.dbDriver e.cfg.dbSource e.stdin : Prompt ρ).trace := fun ok hm => by
    rcases hs _ hm with h | ⟨r, h⟩ <;> simp at h
  simp only [checkDB, hdb, h2]
  rcases hb with rfl | rfl
  · cases e.initDBOk <;> simp [linesRead, linesRead_append, h1, hni]
  · simp [linesRead, h1, hni]

/-- The schema block when the check succeeds. -/
theorem checkDB_ok {ρ : Type} (e : Env ρ) (hdb : e.dbOk = true) :
    checkDB e = ⟨[.dbIsOk true], .ok⟩ := by
  simp [checkDB, hdb]

theorem checkDB_dbIsOk {ρ : Type} (e : Env ρ) (b : Bool)
    (h : Event.dbIsOk b ∈ (checkDB e).trace) : e.dbOk = b := by
  have hs := promptLoop_steps (ρ := ρ) e.cfg.dbDriver e.cfg.dbSource e.stdin
  have hni : Event.dbIsOk b ∉
      (promptLoop e.cfg.dbDriver e.cfg.dbSource e.stdin : Prompt ρ).trace := fun hm => by
    rcases hs _ hm with h | ⟨r, h⟩ <;> simp at h
  revert h
  simp only [checkDB]
  cases e.dbOk <;> simp
  split
  · simp [hni]
  · split
    · simp [hni]
    · split
      · cases e.initDBOk <;> simp [hni]
      · simp [hni]

/-- Nothing in `main` touches the schema or standard input. -/
theorem main_no_schema {ρ : Type} (e : Env ρ) :
    ∀ x ∈ (main e).trace, x.isSchemaStep = false := by
  intro x hx
  by_cases hq : Event.nsqdMain ∈ (main e).trace
  · obtain ⟨_, _, hm⟩ := main_queue_started e hq
    rw [hm] at hx
    simp only [List.mem_append, List.mem_cons] at hx
    simp at hx
    rcases hx with (rfl | rfl | rfl | rfl | rfl | rfl | rfl) | hx <;> try rfl
    have := afterQueue_steps e x hx
    cases x <;> simp_all [Event.isAfterQueue, Event.isSmtpdStep, Event.isSchemaStep]
  · have := ((main_queue_not_started e hq).1 x hx).2
    cases x <;> simp_all [Event.isInitStep, Event.isSchemaStep]

/-- A run that performs the schema check. -/
theorem program_of_dbIsOk {ρ : Type} (e : Env ρ) (b : Bool)
    (h : Event.dbIsOk b ∈ (program e).trace) :
    e.dbOk = b ∧ ∃ tail : List (Event ρ), (∀ x ∈ tail, x.isSchemaStep = false) ∧
      (program e).trace =
        [.scopeInit true, .mkdirAll e.basePath "db" true, .mkdirAll e.basePath "nsq" true,
          .mkdirAll e.basePath "ssl" true] ++ (checkDB e).trace ++ tail ∧
      ((checkDB e).outcome ≠ .ok → (program e).outcome = (checkDB e).outcome) := by
  have hm := main_no_schema e
  have hmb : Event.dbIsOk b ∉ (main e).trace := fun hx => by
    have := hm _ hx; simp [Event.isSchemaStep] at this
  revert h
  simp only [program, init, initScope, mkdirPaths, requiredPaths]
  cases e.scopeInitOk <;> simp
  cases e.mkdirAllOk "db" <;> simp
  cases e.mkdirAllOk "nsq" <;> simp
  cases e.mkdirAllOk "ssl" <;> simp
  have hk := checkDB_dbIsOk e b
  generalize checkDB e = c at hk
  obtain ⟨ct, co⟩ := c
  cases co <;> simp [hmb]
  · exact fun h => ⟨hk h, hm⟩
  all_goals exact fun h => hk h

/-- The only options a run ever hands to `nsqd.NewNSQD` are `nsqdOptions`. -/
theorem newNSQD_options {ρ : Type} (e : Env ρ) (o : NSQDOptions ρ)
    (h : Event.newNSQD o ∈ (program e).trace) : o = nsqdOptions e := by
  rcases program_cases e with ⟨_, _, _, _, _, hn, _⟩ | ⟨_, _, hp⟩
  · exact hn o h
  · rw [hp] at h
    rcases List.mem_append.1 h with h | h
    · simp only [bootTrace, List.mem_append, List.mem_cons] at h
      simp at h
      rcases h with h | h
      · have := checkDB_schema e _ h; simp [Event.isSchemaStep] at this
      · exact h
    · have := afterQueue_steps e _ h
      simp [Event.isAfterQueue, Event.isSmtpdStep] at this

/-- No component start, no scanner call and no shutdown step in `bootTrace`
apart from the start of the queue itself. -/
theorem bootTrace_mem {ρ : Type} (e : Env ρ) (x : Event ρ) (h : x ∈ bootTrace e) :
    x = .nsqdMain ∨ (x.isBeforeQueue = true ∧ x ≠ .persistMetadata false) := by
  simp only [bootTrace, List.mem_append, List.mem_cons] at h
  simp at h
  rcases h with ((rfl | rfl | rfl | rfl) | h) | rfl | rfl | rfl | rfl | rfl | rfl | rfl <;>
    try simp [Event.isBeforeQueue, Event.isInitStep, Event.isSchemaStep]
  have := checkDB_schema e _ h
  cases x <;> simp_all [Event.isSchemaStep, Event.isBeforeQueue, Event.isInitStep]

/-- What the enable flags do govern: a frontend endpoint is started only when
the frontend-enabled flag is set, and with neither flag set the run never gets
as far as constructing the queue. -/
theorem enable_flags_frontend {ρ : Type} (e : Env ρ) :
    (∀ d, Event.smtpdListenAndServe d ∈ (program e).trace → e.cfg.launchSmtpd = true) ∧
    (e.cfg.launchDeliverd = false → e.cfg.launchSmtpd = false →
      ∀ x ∈ (program e).trace, x.isBeforeQueue = true ∧ ∀ o, x ≠ .newNSQD o) := by
  have hi := init_steps e
  constructor
  · intro d hd
    rcases program_cases e with ⟨hb, _⟩ | ⟨_, _, hp⟩
    · have := hb _ hd
      simp [Event.isBeforeQueue, Event.isInitStep, Event.isSchemaStep] at this
    · rw [hp] at hd
      rcases List.mem_append.1 hd with hd | hd
      · rcases bootTrace_mem e _ hd with h1 | ⟨h1, _⟩
        · simp at h1
        · simp [Event.isBeforeQueue, Event.isInitStep, Event.isSchemaStep] at h1
      · by_contra hs
        revert hd
        simp only [afterQueue, startSmtpd, startDeliverd, awaitSignal]
        cases e.signal <;> simp [hs]
  · intro h1 h2 x hx
    have hm : ∀ y ∈ (main e).trace, y.isBeforeQueue = true ∧ ∀ o, y ≠ .newNSQD o := by
      simp only [main, migrate, appRun, action, nothingToDoCheck, h1, h2]
      cases e.autoMigrateDBOk <;> simp [Event.isBeforeQueue]
      cases e.cli with
      | command => simp
      | action args => cases args <;> simp [Event.isBeforeQueue]
    have hin : ∀ y ∈ (init e).trace, y.isBeforeQueue = true ∧ ∀ o, y ≠ .newNSQD o :=
      fun y hy => by
        have := hi y hy
        cases y <;> simp_all [Event.isBeforeQueue, Event.isInitStep, Event.isSchemaStep]
    by_cases hok : (init e).outcome = .ok
    · rw [program, Run.seq_of_ok _ _ hok] at hx
      rcases List.mem_append.1 hx with hx | hx
      · exact hin x hx
      · exact hm x hx
    · rw [program, Run.seq_of_ne_ok _ _ hok] at hx
      exact hin x hx

/-- The worker start is not guarded: once the queue is started and the frontend
block completes, `go deliverd.Run()` is executed whatever the worker-enabled
flag says. -/
theorem deliverd_started_unconditionally {ρ : Type} (e : Env ρ)
    (h : Event.nsqdMain ∈ (program e).trace) (hs : (startSmtpd e).outcome = .ok) :
    Event.deliverdRun ∈ (program e).trace := by
  rcases program_cases e with ⟨hb, _⟩ | ⟨_, _, hp⟩
  · have := hb _ h
    simp [Event.isBeforeQueue, Event.isInitStep, Event.isSchemaStep] at this
  · rcases afterQueue_cases e with ⟨_, ha⟩ | ⟨hn, _⟩
    · rw [hp, ha]; simp
    · exact absurd hs hn

/-- The prompt loop cannot get past an answer without bytes: if the check
reports missing tables and the first read is at end of input, or delivers an
empty line, the run ends in an index panic. -/
theorem prompt_panics_on_empty_read {ρ : Type} (e : Env ρ)
    (h : Event.dbIsOk false ∈ (program e).trace)
    (hin : e.stdin = [] ∨ ∃ rest, e.stdin = [] :: rest ∨ e.stdin = [10] :: rest) :
    (program e).outcome = .indexPanic := by
  obtain ⟨hdb, _, _, _, ho⟩ := program_of_dbIsOk e false h
  have hc : (checkDB e).outcome = .indexPanic := by
    rcases hin with hin | ⟨rest, hin | hin⟩ <;>
      simp [checkDB, hdb, hin, promptLoop, promptLoopAux, readLine, readLineLoop,
        sliceToNewline, trimLineEnd, defaultBufSize]
  rw [ho (by simp [hc]), hc]

/-! ## Claims -/

/-- C1. Startup ordering: in every run that starts the delivery worker, the
startup effects of the supervisor are, in this order and each exactly once,
`scope.Init` (successful), creation of the `db`, `nsq` and `ssl` directories
under the base path, `LoadMetadata`, `nsqd.Main`, the start of every frontend
endpoint (in configuration order) and `deliverd.Run`. Every effect is a
synchronous call or a goroutine spawn, so each has completed when the next one
begins. -/
theorem C1_startup_order {ρ : Type} (e : Env ρ)
    (h : Event.deliverdRun ∈ (program e).trace) :
    (program e).trace.filter Event.isStartupStep =
      [.scopeInit true, .mkdirAll e.basePath "db" true, .mkdirAll e.basePath "nsq" true,
        .mkdirAll e.basePath "ssl" true, .loadMetadata, .nsqdMain]
      ++ (frontendEndpoints e).map Event.smtpdListenAndServe ++ [.deliverdRun] := by
  rcases program_cases e with ⟨hb, _⟩ | ⟨_, _, hp⟩
  · have := hb _ h
    simp [Event.isBeforeQueue, Event.isInitStep, Event.isSchemaStep] at this
  · have hdb := checkDB_schema e
    have hnd : Event.deliverdRun ∉ bootTrace e := fun hm => by
      simp only [bootTrace, List.mem_append, List.mem_cons] at hm
      simp at hm
      have := hdb _ hm; simp [Event.isSchemaStep] at this
    rw [hp] at h ⊢
    rcases afterQueue_cases e with ⟨hs, ha⟩ | ⟨hs, ha⟩
    · have hsig : (awaitSignal e).trace.filter Event.isStartupStep = [] := by
        simp only [awaitSignal]
        cases e.signal <;> simp [Event.isStartupStep]
      simp [ha, bootTrace, List.filter_append, checkDB_filter_startup, startSmtpd_ok e hs,
        Event.isStartupStep, hsig]
    · rw [ha] at h
      rcases List.mem_append.1 h with h | h
      · exact absurd h hnd
      · have := startSmtpd_steps e _ h
        simp [Event.isSmtpdStep] at this

/-- C1 at `sampleEnv`: the run starts the worker and follows the order. -/
theorem C1_witness :
    Event.deliverdRun ∈ (program sampleEnv).trace ∧
    (program sampleEnv).trace.filter Event.isStartupStep =
      [.scopeInit true, .mkdirAll sampleEnv.basePath "db" true,
        .mkdirAll sampleEnv.basePath "nsq" true, .mkdirAll sampleEnv.basePath "ssl" true,
        .loadMetadata, .nsqdMain]
      ++ (frontendEndpoints sampleEnv).map Event.smtpdListenAndServe ++ [.deliverdRun] :=
  ⟨by decide, C1_startup_order sampleEnv (by decide)⟩

/-- C2. Shutdown ordering: in every run in which the termination signal is
received (once, at `<-sigChan`), everything after it is: the log line, then
`scope.NsqQueueProducer.Stop()`, then `nsqd.Exit()`, and the action returns
right after `nsqd.Exit()` has returned (exit status 0). In particular no
component is started after the signal. -/
theorem C2_shutdown_order {ρ : Type} (e : Env ρ)
    (h : Event.signalReceived ∈ (program e).trace) :
    ∃ before, (program e).trace =
        before ++ [.signalReceived, .logInfo "Exiting...", .producerStop, .nsqdExit] ∧
      Event.signalReceived ∉ before ∧ (program e).outcome = .ok := by
  have hdb := checkDB_schema e
  have hss := startSmtpd_steps e
  have hnb : Event.signalReceived ∉ bootTrace e := fun hm => by
    simp only [bootTrace, List.mem_append, List.mem_cons] at hm
    simp at hm
    have := hdb _ hm; simp [Event.isSchemaStep] at this
  have hns : Event.signalReceived ∉ (startSmtpd e).trace := fun hm => by
    have := hss _ hm; simp [Event.isSmtpdStep] at this
  rcases program_cases e with ⟨hb, _⟩ | ⟨_, _, hp⟩
  · have := hb _ h
    simp [Event.isBeforeQueue, Event.isInitStep, Event.isSchemaStep] at this
  · rw [hp] at h ⊢
    rcases afterQueue_cases e with ⟨hs, ha⟩ | ⟨hs, ha⟩
    · rw [ha] at h ⊢
      have hsig : e.signal = true := by
        by_contra hc
        simp [awaitSignal, hc, hnb, hns] at h
      refine ⟨bootTrace e ++ ((startSmtpd e).trace ++ [.deliverdRun]), ?_, ?_, ?_⟩
      · simp [awaitSignal, hsig]
      · simp [hnb, hns]
      · simp [awaitSignal, hsig]
    · rw [ha] at h
      rcases List.mem_append.1 h with h | h
      · exact absurd h hnb
      · exact absurd h hns

/-- C2 at `sampleEnv`: the signal arrives and the shutdown sequence follows. -/
theorem C2_witness :
    Event.signalReceived ∈ (program sampleEnv).trace ∧
    ∃ before, (program sampleEnv).trace =
        before ++ [.signalReceived, .logInfo "Exiting...", .producerStop, .nsqdExit] ∧
      Event.signalReceived ∉ before ∧ (program sampleEnv).outcome = .ok :=
  ⟨by decide, C2_shutdown_order sampleEnv (by decide)⟩

/-- C3 fails as stated: with frontend and scanner enabled and the scanner
not accepting connections, the run ends in the fatal scanner error after
`nsqd.Main` has been called. -/
theorem C3_counterexample :
    (program scannerDownEnv).outcome = .fatal .clamav ∧
    Event.nsqdMain ∈ (program scannerDownEnv).trace := by decide

/-- C3, amended. In every run that ends in one of the fatal startup errors
"nothing to do", metadata persistence failure, scanner connection failure or
unparsable endpoint specification, no frontend endpoint and no delivery worker
has been started. The queue has not been started for the first two errors; for
the last two `nsqd.Main` has already been called. -/
theorem C3_startup_failure {ρ : Type} (e : Env ρ) (f : Fatal)
    (h : (program e).outcome = .fatal f)
    (hf : f = .nothingToDo ∨ f = .persistMetadata ∨ f = .clamav ∨ f = .smtpdDsn) :
    (∀ d, Event.smtpdListenAndServe d ∉ (program e).trace) ∧
    Event.deliverdRun ∉ (program e).trace ∧
    ((f = .nothingToDo ∨ f = .persistMetadata) → Event.nsqdMain ∉ (program e).trace) ∧
    ((f = .clamav ∨ f = .smtpdDsn) → Event.nsqdMain ∈ (program e).trace) := by
  rcases program_cases e with ⟨hb, _, h2, h3, _⟩ | ⟨_, _, hp⟩
  · refine ⟨fun d hd => ?_, fun hd => ?_, fun _ hd => ?_, ?_⟩
    · have := hb _ hd
      simp [Event.isBeforeQueue, Event.isInitStep, Event.isSchemaStep] at this
    · have := hb _ hd
      simp [Event.isBeforeQueue, Event.isInitStep, Event.isSchemaStep] at this
    · have := hb _ hd
      simp [Event.isBeforeQueue, Event.isInitStep, Event.isSchemaStep] at this
    · rintro (rfl | rfl)
      · exact absurd h h2
      · exact absurd h h3
  · rw [hp] at h ⊢
    simp only at h
    rcases afterQueue_cases e with ⟨hs, ha⟩ | ⟨hs, ha⟩
    · rw [ha] at h
      revert h
      simp only [awaitSignal]
      cases e.signal <;> simp
    · obtain ⟨ho, hc⟩ := startSmtpd_not_ok e hs
      rw [ha] at h ⊢
      have hboot : ∀ x ∈ bootTrace e ++ (startSmtpd e).trace,
          x = .nsqdMain ∨ x.isComponentStart = false := fun x hx => by
        rcases List.mem_append.1 hx with hx | hx
        · rcases bootTrace_mem e x hx with h1 | ⟨h1, _⟩
          · exact Or.inl h1
          · refine Or.inr ?_
            cases x <;> simp_all [Event.isBeforeQueue, Event.isInitStep, Event.isSchemaStep,
              Event.isComponentStart]
        · exact Or.inr (hc x hx)
      refine ⟨fun d hd => ?_, fun hd => ?_, ?_, fun _ => ?_⟩
      · have := hboot _ hd; simp [Event.isComponentStart] at this
      · have := hboot _ hd; simp [Event.isComponentStart] at this
      · rintro (rfl | rfl) <;> rw [h] at ho <;> simp at ho
      · simp [bootTrace]

/-- C3 amended, at `scannerDownEnv` (fatal scanner error). -/
theorem C3_witness :
    (program scannerDownEnv).outcome = .fatal .clamav ∧
    ((∀ d, Event.smtpdListenAndServe d ∉ (program scannerDownEnv).trace) ∧
      Event.deliverdRun ∉ (program scannerDownEnv).trace ∧
      ((Fatal.clamav = .nothingToDo ∨ Fatal.clamav = .persistMetadata) →
        Event.nsqdMain ∉ (program scannerDownEnv).trace) ∧
      ((Fatal.clamav = .clamav ∨ Fatal.clamav = .smtpdDsn) →
        Event.nsqdMain ∈ (program scannerDownEnv).trace)) :=
  ⟨by decide, C3_startup_failure scannerDownEnv .clamav (by decide) (by decide)⟩

/-- C4 fails as stated. (1) Worker only, scanner feature enabled, scanner
unreachable: the scanner is never contacted, the worker is started and the
process exits with status 0 after the signal. (2) Frontend and scanner
enabled, connection fine, health check failing: the result of `c.Ping()` is
discarded, the endpoints are started and the process exits with status 0. -/
theorem C4_counterexample :
    (workerOnlyEnv.cfg.smtpdClamavEnabled = true ∧ workerOnlyEnv.newClamavOk = false ∧
      workerOnlyEnv.pingOk = false ∧
      Event.deliverdRun ∈ (program workerOnlyEnv).trace ∧
      exitCode (program workerOnlyEnv).outcome = some 0) ∧
    (pingFailEnv.cfg.smtpdClamavEnabled = true ∧
      Event.clamavPing false ∈ (program pingFailEnv).trace ∧
      Event.smtpdListenAndServe "0.0.0.0:25" ∈ (program pingFailEnv).trace ∧
      exitCode (program pingFailEnv).outcome = some 0) := by decide

/-- C4, amended. For every configuration in which the frontend and the
scanner feature are both enabled, if no connection to the scanner can be
established, the daemon (default action, no arguments) terminates with a
non-zero exit status and no frontend endpoint is started. -/
theorem C4_scanner_fail_fast {ρ : Type} (e : Env ρ)
    (hs : e.cfg.launchSmtpd = true) (hc : e.cfg.smtpdClamavEnabled = true)
    (hn : e.newClamavOk = false) (ha : e.cli = .action []) :
    (∃ c, exitCode (program e).outcome = some c ∧ c ≠ 0) ∧
    ∀ d, Event.smtpdListenAndServe d ∉ (program e).trace := by
  rcases program_cases e with ⟨hb, h1, _, _, h4, _⟩ | ⟨_, _, hp⟩
  · refine ⟨?_, fun d hd => ?_⟩
    · have h4 := h4 ha
      revert h1 h4
      cases (program e).outcome <;> simp [exitCode]
    · have := hb _ hd
      simp [Event.isBeforeQueue, Event.isInitStep, Event.isSchemaStep] at this
  · have hq : afterQueue e = ⟨[.newClamav e.cfg.smtpdClamavDsns false], .fatal .clamav⟩ := by
      simp [afterQueue, startSmtpd, testClamav, hs, hc, hn]
    rw [hp, hq]
    refine ⟨⟨1, rfl, by decide⟩, fun d hd => ?_⟩
    rcases List.mem_append.1 hd with hd | hd
    · rcases bootTrace_mem e _ hd with h1 | ⟨h1, _⟩
      · simp at h1
      · simp [Event.isBeforeQueue, Event.isInitStep, Event.isSchemaStep] at h1
    · simp at hd

/-- C4 amended, at `scannerDownEnv`. -/
theorem C4_witness :
    (scannerDownEnv.cfg.launchSmtpd = true ∧ scannerDownEnv.cfg.smtpdClamavEnabled = true ∧
      scannerDownEnv.newClamavOk = false) ∧
    ((∃ c, exitCode (program scannerDownEnv).outcome = some c ∧ c ≠ 0) ∧
      ∀ d, Event.smtpdListenAndServe d ∉ (program scannerDownEnv).trace) :=
  ⟨by decide, C4_scanner_fail_fast scannerDownEnv rfl rfl rfl rfl⟩

/-- C5. Zero-buffer durability mode: the options handed to `nsqd.NewNSQD`
always have `MemQueueSize = 0`, `MsgTimeout` = 10 minutes, `MaxReqTimeout` =
1 hour and `MaxMsgTimeout` = 15 hours (in nanoseconds), hence
`MsgTimeout < MaxReqTimeout < MaxMsgTimeout`. -/
theorem C5_zero_buffer {ρ : Type} (e : Env ρ) (opts : NSQDOptions ρ)
    (h : Event.newNSQD opts ∈ (program e).trace) :
    opts.MemQueueSize = 0 ∧
    opts.MsgTimeout = 10 * Minute ∧ opts.MaxReqTimeout = 1 * Hour ∧
    opts.MaxMsgTimeout = 15 * Hour ∧
    opts.MsgTimeout = 600000000000 ∧ opts.MaxReqTimeout = 3600000000000 ∧
    opts.MaxMsgTimeout = 54000000000000 ∧
    opts.MsgTimeout < opts.MaxReqTimeout ∧ opts.MaxReqTimeout < opts.MaxMsgTimeout := by
  rw [newNSQD_options e opts h]
  refine ⟨rfl, rfl, rfl, rfl, ?_, ?_, ?_, ?_, ?_⟩ <;>
    simp [nsqdOptions, Hour, Minute, Second, Millisecond, Microsecond, Nanosecond]

/-- C5 at `sampleEnv`: the queue is constructed with these options. -/
theorem C5_witness :
    Event.newNSQD (nsqdOptions sampleEnv) ∈ (program sampleEnv).trace ∧
    (nsqdOptions sampleEnv).MemQueueSize = 0 ∧
    (nsqdOptions sampleEnv).MsgTimeout < (nsqdOptions sampleEnv).MaxReqTimeout ∧
    (nsqdOptions sampleEnv).MaxReqTimeout < (nsqdOptions sampleEnv).MaxMsgTimeout :=
  have h := C5_zero_buffer sampleEnv (nsqdOptions sampleEnv) (by decide)
  ⟨by decide, h.1, h.2.2.2.2.2.2.2.1, h.2.2.2.2.2.2.2.2⟩

/-- C6. Metadata persistence failure is fatal: if `PersistMetadata` returns an
error the process exits with status 1 and no component (queue, endpoint,
worker) is ever started; and whenever `nsqd.Main` is called, it is called
once, immediately after `LoadMetadata` and a successful `PersistMetadata`. -/
theorem C6_persist_failure_fatal {ρ : Type} (e : Env ρ) :
    (Event.persistMetadata false ∈ (program e).trace →
      exitCode (program e).outcome = some 1 ∧
      ∀ x ∈ (program e).trace, x.isComponentStart = false) ∧
    (Event.nsqdMain ∈ (program e).trace →
      ∃ l r, (program e).trace =
          l ++ [.loadMetadata, .persistMetadata true, .nsqdMain] ++ r ∧
        Event.nsqdMain ∉ l ∧ Event.nsqdMain ∉ r ∧ Event.persistMetadata false ∉ l) := by
  rcases program_cases e with ⟨hb, _, _, _, _, _, h6⟩ | ⟨_, _, hp⟩
  · refine ⟨fun h => ⟨?_, fun x hx => ?_⟩, fun h => ?_⟩
    · rw [h6 h]; rfl
    · have := hb x hx
      cases x <;> simp_all [Event.isBeforeQueue, Event.isInitStep, Event.isSchemaStep,
        Event.isComponentStart]
    · have := hb _ h
      simp [Event.isBeforeQueue, Event.isInitStep, Event.isSchemaStep] at this
  · have hdb := checkDB_schema e
    have haq := afterQueue_steps e
    rw [hp]
    refine ⟨fun h => ?_, fun _ => ?_⟩
    · rcases List.mem_append.1 h with h | h
      · rcases bootTrace_mem e _ h with h1 | ⟨_, h1⟩
        · simp at h1
        · exact absurd rfl h1
      · have := haq _ h
        simp [Event.isAfterQueue, Event.isSmtpdStep] at this
    · refine ⟨[.scopeInit true, .mkdirAll e.basePath "db" true,
          .mkdirAll e.basePath "nsq" true, .mkdirAll e.basePath "ssl" true] ++
          (checkDB e).trace ++
          [.randSeed, .autoMigrateDB true, .signalNotify, .newNSQD (nsqdOptions e)],
        (afterQueue e).trace, ?_, ?_, ?_, ?_⟩
      · simp [bootTrace]
      · simp
        intro hm
        have := hdb _ hm; simp [Event.isSchemaStep] at this
      · intro hm
        have := haq _ hm
        simp [Event.isAfterQueue, Event.isSmtpdStep] at this
      · simp
        intro hm
        have := hdb _ hm; simp [Event.isSchemaStep] at this

/-- C6 at `persistFailEnv` (persist fails) and `sampleEnv` (queue started). -/
theorem C6_witness :
    (Event.persistMetadata false ∈ (program persistFailEnv).trace ∧
      exitCode (program persistFailEnv).outcome = some 1 ∧
      ∀ x ∈ (program persistFailEnv).trace, x.isComponentStart = false) ∧
    (Event.nsqdMain ∈ (program sampleEnv).trace ∧
      ∃ l r, (program sampleEnv).trace =
          l ++ [.loadMetadata, .persistMetadata true, .nsqdMain] ++ r ∧
        Event.nsqdMain ∉ l ∧ Event.nsqdMain ∉ r ∧ Event.persistMetadata false ∉ l) :=
  ⟨⟨by decide, (C6_persist_failure_fatal persistFailEnv).1 (by decide)⟩,
    ⟨by decide, (C6_persist_failure_fatal sampleEnv).2 (by decide)⟩⟩

/-- C7 fails as stated. (1) Tables are missing and the two non-empty answer
lines `x` and `yes` arrive in one read: the first `ReadLine` returns `x` and
its reader, dropped at the end of the iteration, takes `yes` with it; the
second `ReadLine` finds end of input, `r[0]` panics and `initDB` is never
called, although the first line starting with `y` or `n` starts with `y`.
(2) The answer is `y` and `initDB` returns an error: the byte is `y`, no table
is created and the process exits with status 1. -/
theorem C7_counterexample :
    (pipedEnv.stdin = [lineChunk [120] ++ lineChunk [121, 101, 115]] ∧
      Event.dbIsOk false ∈ (program pipedEnv).trace ∧
      linesRead (program pipedEnv).trace = [[120], []] ∧
      Event.initDB true ∉ (program pipedEnv).trace ∧
      Event.initDB false ∉ (program pipedEnv).trace ∧
      (program pipedEnv).outcome = .indexPanic) ∧
    (initFailEnv.stdin = [lineChunk [121]] ∧
      Event.dbIsOk false ∈ (program initFailEnv).trace ∧
      linesRead (program initFailEnv).trace = [[121]] ∧
      Event.initDB true ∉ (program initFailEnv).trace ∧
      exitCode (program initFailEnv).outcome = some 1) := by decide

/-- C7, amended. When the database check reports missing tables and every
answer line is delivered by a read of its own (the line, then `\n`), for
answer lines `pre` not starting with `y` or `n` followed by a line starting
with `y` (121) or `n` (110): the run reads exactly `pre` and that line and
leaves the later reads untouched; `initDB` is called if and only if the byte
is `y`, and reports the tables created if and only if moreover it succeeds;
if it fails, and on `n`, the process exits with status 1. When the check
succeeds, no line is read and `initDB` is not called. -/
theorem C7_schema_bootstrap {ρ : Type} (e : Env ρ) :
    (Event.dbIsOk false ∈ (program e).trace →
      ∀ (pre : List (List Nat)) (b : Nat) (tl : List Nat) (rest : List (List Nat)),
        e.stdin = pre.map lineChunk ++ lineChunk (b :: tl) :: rest →
        (∀ r ∈ pre, AnswerLine r ∧ r[0]? ≠ some 110 ∧ r[0]? ≠ some 121) →
        AnswerLine (b :: tl) →
        (b = 121 ∨ b = 110) →
        linesRead (program e).trace = pre ++ [b :: tl] ∧
        (promptLoop e.cfg.dbDriver e.cfg.dbSource e.stdin : Prompt ρ).unread = rest ∧
        ((∃ ok, Event.initDB ok ∈ (program e).trace) ↔ b = 121) ∧
        (Event.initDB true ∈ (program e).trace ↔ b = 121 ∧ e.initDBOk = true) ∧
        (b = 121 → e.initDBOk = false → exitCode (program e).outcome = some 1) ∧
        (b = 110 → exitCode (program e).outcome = some 1)) ∧
    (Event.dbIsOk true ∈ (program e).trace →
      linesRead (program e).trace = [] ∧ ∀ ok, Event.initDB ok ∉ (program e).trace) := by
  constructor
  · intro h pre b tl rest hin hpre hl hb
    obtain ⟨hdb, tail, htail, ht, ho⟩ := program_of_dbIsOk e false h
    obtain ⟨h1, h2, h3, h4, h5⟩ := checkDB_decided e pre b tl rest hdb hin hpre hl hb
    have hu := (promptLoop_decided (ρ := ρ) e.cfg.dbDriver e.cfg.dbSource pre b tl rest
      hpre hl hb).2.2
    have hnt : linesRead tail = [] := linesRead_eq_nil tail fun x hx r hr => by
      have := htail x hx; simp [hr, Event.isSchemaStep] at this
    have hit : ∀ ok, Event.initDB ok ∉ tail := fun ok hx => by
      have := htail _ hx; simp [Event.isSchemaStep] at this
    refine ⟨?_, ?_, ?_, ?_, fun hy hf => ?_, fun hn => ?_⟩
    · rw [ht]
      simp [linesRead_append, linesRead, h1, hnt]
    · rw [hin]; exact hu
    · rw [ht, ← h2]
      simp [hit]
    · rw [ht, ← h3]
      simp [hit]
    · have h4 := h4 hy hf
      rw [ho (by simp [h4]), h4]
      rfl
    · have h5 := h5 hn
      rw [ho (by simp [h5]), h5]
      rfl
  · intro h
    obtain ⟨hdb, tail, htail, ht, _⟩ := program_of_dbIsOk e true h
    have hnt : linesRead tail = [] := linesRead_eq_nil tail fun x hx r hr => by
      have := htail x hx; simp [hr, Event.isSchemaStep] at this
    have hit : ∀ ok, Event.initDB ok ∉ tail := fun ok hx => by
      have := htail _ hx; simp [Event.isSchemaStep] at this
    rw [ht, checkDB_ok e hdb]
    simp [linesRead_append, linesRead, hnt, hit]

/-- C7 amended, at `acceptEnv` (answers `x`, `yes`, one per read), `declineEnv`
(answer `no`), `initFailEnv` (answer `y`, `initDB` fails) and `sampleEnv`
(database up to date). -/
theorem C7_witness :
    (Event.dbIsOk false ∈ (program acceptEnv).trace ∧
      linesRead (program acceptEnv).trace = [[120]] ++ [[121, 101, 115]] ∧
      Event.initDB true ∈ (program acceptEnv).trace) ∧
    (Event.dbIsOk false ∈ (program declineEnv).trace ∧
      linesRead (program declineEnv).trace = [] ++ [[110, 111]] ∧
      ((∃ ok, Event.initDB ok ∈ (program declineEnv).trace) ↔ 110 = 121) ∧
      exitCode (program declineEnv).outcome = some 1) ∧
    (Event.dbIsOk false ∈ (program initFailEnv).trace ∧
      exitCode (program initFailEnv).outcome = some 1) ∧
    (Event.dbIsOk true ∈ (program sampleEnv).trace ∧
      linesRead (program sampleEnv).trace = [] ∧
      ∀ ok, Event.initDB ok ∉ (program sampleEnv).trace) :=
  have ha := (C7_schema_bootstrap acceptEnv).1 (by decide) [[120]] 121 [101, 115] [] rfl
    (by decide) (by decide) (Or.inl rfl)
  have hd := (C7_schema_bootstrap declineEnv).1 (by decide) [] 110 [111] [] rfl
    (by decide) (by decide) (Or.inr rfl)
  have hf := (C7_schema_bootstrap initFailEnv).1 (by decide) [] 121 [] [] rfl
    (by decide) (by decide) (Or.inl rfl)
  have hs := (C7_schema_bootstrap sampleEnv).2 (by decide)
  ⟨⟨by decide, ha.1, ha.2.2.2.1.2 ⟨rfl, rfl⟩⟩,
    ⟨by decide, hd.1, hd.2.2.1, hd.2.2.2.2.2 rfl⟩,
    ⟨by decide, hf.2.2.2.2.1 rfl rfl⟩, ⟨by decide, hs⟩⟩

/-- C8. Cluster registration is optional: the options handed to `nsqd.NewNSQD`
carry the configured lookupd addresses when cluster mode is enabled and the
library default otherwise; all other options are the same whatever the value
of the cluster flag. -/
theorem C8_cluster_addresses {ρ : Type} (e : Env ρ) (opts : NSQDOptions ρ)
    (h : Event.newNSQD opts ∈ (program e).trace) :
    (e.cfg.clusterModeEnabled = true →
      opts.NSQLookupdTCPAddresses = e.cfg.nsqLookupdTcpAddresses) ∧
    (e.cfg.clusterModeEnabled = false →
      opts.NSQLookupdTCPAddresses = e.defaults.NSQLookupdTCPAddresses) ∧
    (∀ b : Bool,
      { nsqdOptions { e with cfg := { e.cfg with clusterModeEnabled := b } } with
        NSQLookupdTCPAddresses := opts.NSQLookupdTCPAddresses } = opts) := by
  rw [newNSQD_options e opts h]
  simp only [nsqdOptions]
  refine ⟨fun hc => ?_, fun hc => ?_, fun b => ?_⟩
  · simp [hc]
  · cases hl : e.cfg.nsqdEnableLogging <;> simp [hc]
  · cases b <;> cases e.cfg.clusterModeEnabled <;> cases e.cfg.nsqdEnableLogging <;> simp

/-- C8 at `clusterEnv` (cluster mode on) and `sampleEnv` (cluster mode off). -/
theorem C8_witness :
    (Event.newNSQD (nsqdOptions clusterEnv) ∈ (program clusterEnv).trace ∧
      (nsqdOptions clusterEnv).NSQLookupdTCPAddresses = ["127.0.0.1:4160"]) ∧
    (Event.newNSQD (nsqdOptions sampleEnv) ∈ (program sampleEnv).trace ∧
      (nsqdOptions sampleEnv).NSQLookupdTCPAddresses =
        sampleEnv.defaults.NSQLookupdTCPAddresses) :=
  ⟨⟨by decide, (C8_cluster_addresses clusterEnv (nsqdOptions clusterEnv) (by decide)).1 rfl⟩,
    ⟨by decide,
      (C8_cluster_addresses sampleEnv (nsqdOptions sampleEnv) (by decide)).2.1 rfl⟩⟩

/-- C9 fails on the code: with the frontend enabled and the worker-enabled
flag off, `go deliverd.Run()` is executed all the same (line 172 is not
guarded by `GetLaunchDeliverd`). -/
theorem C9_worker_started_when_disabled :
    frontendOnlyEnv.cfg.launchDeliverd = false ∧
    Event.deliverdRun ∈ (program frontendOnlyEnv).trace := by decide

/-- C10 fails on the code: on an empty answer line, and on end of input,
`ReadLine` returns no bytes and `r[0]` (line 55) panics with an index out of
range. -/
theorem C10_prompt_index_panic :
    (Event.readLine [] ∈ (program emptyLineEnv).trace ∧
      (program emptyLineEnv).outcome = .indexPanic) ∧
    (Event.readLine [] ∈ (program endOfInputEnv).trace ∧
      (program endOfInputEnv).outcome = .indexPanic) := by decide

end Tmail
